import Mathlib

/-!
Verification of the flow-studio-dev health endpoint.

The repository consists of two handler functions in
`src/src/handlers/health.rs` (a synchronous `health` and an async
`health_handler`, both returning the constant string body
`{ "status": "ok" }`) and a test scaffold in
`src/tests/health_check_tests.rs` whose assertions compare constants.
Invocation of a Rust handler taking no arguments is modelled as a Lean
function on `Unit`; the async handler, which awaits nothing, is modelled
both directly as a function and, for the suspension claim, as a future
with an explicit poll result.
-/

namespace FlowStudio

/-- Embeds `pub fn health() -> &'static str` from
`src/src/handlers/health.rs` lines 2-4: it returns the string literal
`{ "status": "ok" }` (braces written as hex escapes). -/
def health : Unit → String := fun _ => "\x7b \"status\": \"ok\" \x7d"

/-- Embeds `pub async fn health_handler() -> &'static str` from
`src/src/handlers/health.rs` lines 6-9. The body awaits nothing, so the
value the future resolves to is the same string literal, and the async
function is embedded directly as the function returning that value. -/
def health_handler : Unit → String := fun _ => "\x7b \"status\": \"ok\" \x7d"

/-- Poll result of a future, after Rust's `core::task::Poll`. -/
inductive Poll (α : Type) where
  | ready (a : α)
  | pending
deriving DecidableEq, Repr

/-- Embeds the async `health_handler` as a future: its body contains no
await point, so the very first poll returns `ready` with the body
string. -/
def health_handler_future : Unit → Poll String :=
  fun u => Poll.ready (health_handler u)

/-- Invocation of `health` in an ambient server state of arbitrary type
`σ`: the handler's body reads no state and writes no state, so the
invocation pairs the returned body with the unchanged state. -/
def healthInvoke (σ : Type) (s : σ) : String × σ := (health (), s)

/-- An HTTP response as described by the spec: status code, content
type, and body. -/
structure HttpResponse where
  status : Nat
  contentType : String
  body : String
deriving DecidableEq, Repr

/-- Modelled from the spec: the route registration binding `GET /health`
to the handler is absent from `src/` (the spec calls it "a surrounding
server/runtime that hosts the route"). Per spec sections 2, 4.1 and 6 it
wraps the handler's body in a response with status 200 and content type
`application/json`. -/
def healthRoute : Unit → HttpResponse := fun u =>
  { status := 200, contentType := "application/json", body := health u }

end FlowStudio

namespace FlowStudio

/-- Left brace character. -/
def lbrace : Char := Char.ofNat 123

/-- Right brace character. -/
def rbrace : Char := Char.ofNat 125

/-- A JSON value, restricted to the forms needed to state what the
constant body denotes: strings and objects. -/
inductive Json where
  | str (s : String)
  | obj (fields : List (String × Json))

/-- Drops leading JSON whitespace. -/
def skipWs : List Char → List Char
  | c :: cs =>
    if c = ' ' ∨ c = '\t' ∨ c = '\n' ∨ c = '\r' then skipWs cs else c :: cs
  | [] => []

/-- Reads the characters of a JSON string after its opening quote, up to
the closing quote; the body of the health constant contains no escape
sequences, so none are interpreted. -/
def parseStrBody : List Char → Option (List Char × List Char)
  | [] => none
  | c :: cs =>
    if c = '"' then some ([], cs)
    else
      match parseStrBody cs with
      | some (acc, rest) => some (c :: acc, rest)
      | none => none

mutual

/-- Parses one JSON value (string or object), with fuel bounding the
nesting depth. -/
def parseVal : Nat → List Char → Option (Json × List Char)
  | 0, _ => none
  | fuel + 1, input =>
    match skipWs input with
    | [] => none
    | c :: cs =>
      if c = '"' then
        match parseStrBody cs with
        | some (body, rest) => some (Json.str (String.mk body), rest)
        | none => none
      else if c = lbrace then
        match skipWs cs with
        | [] => none
        | c2 :: cs2 =>
          if c2 = rbrace then some (Json.obj [], cs2)
          else
            match parseFields fuel (c2 :: cs2) with
            | some (fs, rest) => some (Json.obj fs, rest)
            | none => none
      else none

/-- Parses a non-empty comma-separated list of `"key": value` members,
consuming the closing brace of the object. -/
def parseFields : Nat → List Char → Option (List (String × Json) × List Char)
  | 0, _ => none
  | fuel + 1, input =>
    match skipWs input with
    | [] => none
    | c :: cs =>
      if c = '"' then
        match parseStrBody cs with
        | none => none
        | some (key, rest) =>
          match skipWs rest with
          | ':' :: rest2 =>
            match parseVal fuel rest2 with
            | none => none
            | some (v, rest3) =>
              match skipWs rest3 with
              | c2 :: rest4 =>
                if c2 = ',' then
                  match parseFields fuel rest4 with
                  | some (fs, rest5) =>
                    some ((String.mk key, v) :: fs, rest5)
                  | none => none
                else if c2 = rbrace then
                  some ([(String.mk key, v)], rest4)
                else none
              | [] => none
          | _ => none
      else none

end

/-- Parses a complete JSON document: one value followed only by
whitespace. -/
def parseJson (s : String) : Option Json :=
  match parseVal (s.length + 1) s.data with
  | some (v, rest) => if skipWs rest = [] then some v else none
  | none => none

/-- Expression forms available to a minimal Rust handler body: a string
literal, or an aborting computation (a Rust expression can always abort,
so failure is representable in the language even though no handler uses
it). -/
inductive HandlerExpr where
  | strLit (s : String)
  | abort (msg : String)

/-- Evaluates a handler-body expression: a string literal yields its
string, an aborting expression yields an error. -/
def evalExpr : HandlerExpr → Except String String
  | HandlerExpr.strLit s => Except.ok s
  | HandlerExpr.abort m => Except.error m

/-- The body of `health` translated expression by expression from
`src/src/handlers/health.rs` line 3: it is the single string literal,
with no aborting subexpression. -/
def healthBodyExpr : HandlerExpr :=
  HandlerExpr.strLit "\x7b \"status\": \"ok\" \x7d"

/-- The body of `health_handler` translated expression by expression
from `src/src/handlers/health.rs` line 8: again a single string literal,
with no aborting subexpression. -/
def healthHandlerBodyExpr : HandlerExpr :=
  HandlerExpr.strLit "\x7b \"status\": \"ok\" \x7d"

/-- Embeds the test `health_endpoint_returns_ok` from
`src/tests/health_check_tests.rs` lines 2-7. Its body is the single
assertion `assert_eq!(200, 200)`; the test outcome is the truth value of
that comparison. The handler under test is taken as a parameter to
record that the assertion does not mention it. -/
def health_endpoint_returns_ok (handler : Unit → String) : Bool :=
  200 == 200

/-- Embeds the test `health_returns_ok` from
`src/tests/health_check_tests.rs` lines 12-18. Its body binds an unused
note string and runs `assert!(true)`; the test outcome is that constant.
The handler under test is taken as a parameter to record that the
assertion does not mention it. -/
def health_returns_ok (handler : Unit → String) : Bool :=
  let note : String :=
    "Test should perform GET /health and assert 200 + \x7bstatus: \"ok\"\x7d"
  true

/-- The claim literal of spec section 8's scenario line: the compact
string `{"status":"ok"}` with no spaces, written with hex-escaped
braces. It is compared against the body the code actually returns. -/
def compactBody : String := "\x7b\"status\":\"ok\"\x7d"

end FlowStudio

namespace FlowStudio

/-- C1: for every invocation, both `health` and `health_handler` return
exactly the literal body `{ "status": "ok" }`, character for
character. -/
theorem health_and_handler_return_spaced_literal :
    ∀ u : Unit,
      health u = "\x7b \"status\": \"ok\" \x7d" ∧
      health_handler u = "\x7b \"status\": \"ok\" \x7d" :=
  fun _ => ⟨rfl, rfl⟩

/-- C2: for every invocation, the response served for `GET /health` has
status code 200 (the route wrapper is modelled from the spec, the body
comes from the source handler). -/
theorem health_route_status_200 :
    ∀ u : Unit, (healthRoute u).status = 200 :=
  fun _ => rfl

/-- C3: the synchronous `health` and the async `health_handler` are
equivalent: every invocation returns equal strings, and the async
future resolves immediately to that same string. -/
theorem health_handlers_equivalent :
    ∀ u : Unit,
      health u = health_handler u ∧
      health_handler_future u = Poll.ready (health u) :=
  fun _ => ⟨rfl, rfl⟩

/-- C4 counterexample: at the concrete invocation `()`, the body the
handler returns is not the compact string `{"status":"ok"}`; the code's
literal contains spaces. -/
theorem health_body_differs_from_compact :
    ¬ health () = compactBody := by
  decide

/-- C4 amended: in the scenario `GET /health`, the response body is
exactly `{ "status": "ok" }` — the literal with spaces, character for
character, as the source handler writes it. -/
theorem health_route_body_spaced :
    ∀ u : Unit, (healthRoute u).body = "\x7b \"status\": \"ok\" \x7d" :=
  fun _ => rfl

/-- C5: the handler is deterministic and interference-free: invoked in
any two ambient states (of any state type), the outputs are equal, and
each invocation leaves its ambient state unchanged. -/
theorem health_deterministic_stateless :
    ∀ (σ : Type) (s t : σ),
      (healthInvoke σ s).1 = (healthInvoke σ t).1 ∧
      (healthInvoke σ s).2 = s :=
  fun _ _ _ => ⟨rfl, rfl⟩

/-- C6: the handler has no failure paths: evaluating either handler's
body never yields an error (even though the expression language can
express failure), and each yields exactly the returned string. -/
theorem health_no_failure_paths :
    ∀ u : Unit,
      evalExpr healthBodyExpr = Except.ok (health u) ∧
      evalExpr healthHandlerBodyExpr = Except.ok (health_handler u) ∧
      (∀ m : String, evalExpr healthBodyExpr ≠ Except.error m) ∧
      (∀ m : String, evalExpr healthHandlerBodyExpr ≠ Except.error m) :=
  fun _ =>
    ⟨rfl, rfl, fun _ h => Except.noConfusion h, fun _ h => Except.noConfusion h⟩

/-- C7: the handler is total and never suspends: the async handler's
future is ready on the first poll (it awaits nothing), so no invocation
is ever pending. -/
theorem health_handler_never_suspends :
    ∀ u : Unit,
      health_handler_future u = Poll.ready (health_handler u) ∧
      health_handler_future u ≠ Poll.pending :=
  fun _ => ⟨rfl, fun h => Poll.noConfusion h⟩

/-- C8: the string the handler returns is valid JSON: parsing it
succeeds and yields an object with the single field `status` whose value
is the string `ok`. -/
theorem health_body_parses_as_status_ok :
    ∀ u : Unit,
      parseJson (health u) = some (Json.obj [("status", Json.str "ok")]) :=
  fun _ => rfl

/-- C9: for every invocation, the response served for `GET /health`
carries content type `application/json` (the route wrapper is modelled
from the spec). -/
theorem health_route_content_type_json :
    ∀ u : Unit, (healthRoute u).contentType = "application/json" :=
  fun _ => rfl

/-- C10: the test scaffold does not exercise the handler: each test's
outcome is the same whichever handler is plugged in, and both tests pass
unconditionally. -/
theorem tests_do_not_exercise_handler :
    ∀ h h' : Unit → String,
      health_endpoint_returns_ok h = health_endpoint_returns_ok h' ∧
      health_returns_ok h = health_returns_ok h' ∧
      health_endpoint_returns_ok h = true ∧
      health_returns_ok h = true :=
  fun _ _ => ⟨rfl, rfl, rfl, rfl⟩

end FlowStudio
